import Mathlib

/-!
Verification of the BME280 SPI driver (`src/spi.rs`) and of its
transport-agnostic driver core.  The repository ships only the SPI
transport file and an example; the common core (`lib.rs`: `BME280Common`,
`Configuration`, calibration parsing, the compensation engine and the
error taxonomy) is referenced from `src/spi.rs` but its source is not
present, so those parts are modelled from the specification, as marked
in the doc comments below.

The physical SPI bus is modelled as an oracle: a function from one bus
transaction (a list of operations executed under a single chip-select)
to either a transport error or the bytes clocked in.  Every interface
operation returns the list of transactions it issued together with its
result, so theorems can speak about the exact bus traffic.
-/

namespace BME280

/-- One SPI operation inside a transaction, mirroring
`embedded_hal::spi::Operation`: a write of outgoing bytes, a read of a
given number of bytes, or a full-duplex transfer that sends `data` while
reading `readLen` bytes (`transfer(&mut [], &transfer)` has `readLen = 0`). -/
inductive SpiOp where
  | write (data : List Nat)
  | read (len : Nat)
  | transfer (readLen : Nat) (data : List Nat)
deriving Repr, DecidableEq

/-- The bytes an operation drives onto the bus. -/
def SpiOp.bytesSent : SpiOp → List Nat
  | .write d => d
  | .read _ => []
  | .transfer _ d => d

/-- All bytes a transaction drives onto the bus, in order. -/
def txnBytesSent (t : List SpiOp) : List Nat :=
  (t.map SpiOp.bytesSent).flatten

/-- A SPI device handle: responds to one transaction with the bytes read,
or fails with a transport error `E`.  (`SpiDevice::write`/`transfer` are
convenience forms: each is a single transaction.) -/
def SpiDevice (E : Type) : Type :=
  List SpiOp → Except E (List Nat)

/-- Error which occurred during an SPI transaction (`SPIError<SPIE>` in
`src/spi.rs`). -/
inductive SPIError (E : Type) where
  | SPI (e : E)
deriving Repr, DecidableEq

/-- Modelled from the spec: the driver error taxonomy of the missing
`lib.rs` (§7): a wrapped transport failure (`Error::Bus`, the one variant
visible in `src/spi.rs`), a chip-identity mismatch, and use before
initialization. -/
inductive Error (E : Type) where
  | Bus (e : E)
  | UnsupportedChip (id : Nat)
  | Uninitialized
deriving Repr, DecidableEq

/-- Result of a transport operation: the bus transactions issued, and the
operation's result. -/
def BusResult (E : Type) (α : Type) : Type :=
  List (List SpiOp) × Except (Error (SPIError E)) α

/-- Register access struct for blocking SPI (`SPIInterface<SPI>`). -/
structure SPIInterface (SPI : Type) where
  spi : SPI

/-- Register access struct for suspension-capable SPI
(`AsyncSPIInterface<SPI>`); identical layout, generated from the same
source by `maybe_async_cfg`. -/
structure AsyncSPIInterface (SPI : Type) where
  spi : SPI

/-- `SPIInterface::read_any_register`: one transaction
`[Write [register], Read data]`; a bus failure is wrapped as
`Error::Bus(SPIError::SPI(e))`. -/
def SPIInterface.read_any_register {E : Type} (i : SPIInterface (SpiDevice E))
    (register : Nat) (len : Nat) : BusResult E (List Nat) :=
  let txn : List SpiOp := [.write [register], .read len]
  ([txn],
    match i.spi txn with
    | .ok bs => .ok bs
    | .error e => .error (.Bus (.SPI e)))

/-- `SPIInterface::read_register`: one-byte read through
`read_any_register`. -/
def SPIInterface.read_register {E : Type} (i : SPIInterface (SpiDevice E))
    (register : Nat) : BusResult E Nat :=
  let (t, r) := i.read_any_register register 1
  (t, r.map (fun bs => bs.getD 0 0))

/-- Length of the raw data block (pressure 3 bytes + temperature 3 bytes
+ humidity 2 bytes, contiguous).  Modelled from the spec: the constant is
declared in the missing `lib.rs`. -/
def BME280_P_T_H_DATA_LEN : Nat := 8

/-- Modelled from the spec: length of the temperature+pressure
calibration block of the missing `lib.rs` (vendor-fixed range). -/
def BME280_P_T_CALIB_DATA_LEN : Nat := 26

/-- Modelled from the spec: length of the humidity calibration block of
the missing `lib.rs` (vendor-fixed range). -/
def BME280_H_CALIB_DATA_LEN : Nat := 7

/-- `SPIInterface::read_data`: reads the raw data block. -/
def SPIInterface.read_data {E : Type} (i : SPIInterface (SpiDevice E))
    (register : Nat) : BusResult E (List Nat) :=
  i.read_any_register register BME280_P_T_H_DATA_LEN

/-- `SPIInterface::read_pt_calib_data`: reads the temperature+pressure
calibration block. -/
def SPIInterface.read_pt_calib_data {E : Type} (i : SPIInterface (SpiDevice E))
    (register : Nat) : BusResult E (List Nat) :=
  i.read_any_register register BME280_P_T_CALIB_DATA_LEN

/-- `SPIInterface::read_h_calib_data`: reads the humidity calibration
block. -/
def SPIInterface.read_h_calib_data {E : Type} (i : SPIInterface (SpiDevice E))
    (register : Nat) : BusResult E (List Nat) :=
  i.read_any_register register BME280_H_CALIB_DATA_LEN

/-- `SPIInterface::write_register` (blocking variant): one
`spi.write(&[register & 0x7f, payload])` call — a single transaction
whose only operation writes the masked address byte then the payload. -/
def SPIInterface.write_register {E : Type} (i : SPIInterface (SpiDevice E))
    (register : Nat) (payload : Nat) : BusResult E Unit :=
  -- If the first bit is 0, the register is written.
  let txn : List SpiOp := [.write [register &&& 0x7f, payload]]
  ([txn],
    match i.spi txn with
    | .ok _ => .ok ()
    | .error e => .error (.Bus (.SPI e)))

/-- `AsyncSPIInterface::read_any_register`: textually the same body as
the blocking variant (both are generated from one source impl). -/
def AsyncSPIInterface.read_any_register {E : Type}
    (i : AsyncSPIInterface (SpiDevice E)) (register : Nat) (len : Nat) :
    BusResult E (List Nat) :=
  let txn : List SpiOp := [.write [register], .read len]
  ([txn],
    match i.spi txn with
    | .ok bs => .ok bs
    | .error e => .error (.Bus (.SPI e)))

/-- `AsyncSPIInterface::read_register`. -/
def AsyncSPIInterface.read_register {E : Type}
    (i : AsyncSPIInterface (SpiDevice E)) (register : Nat) : BusResult E Nat :=
  let (t, r) := i.read_any_register register 1
  (t, r.map (fun bs => bs.getD 0 0))

/-- `AsyncSPIInterface::read_data`. -/
def AsyncSPIInterface.read_data {E : Type}
    (i : AsyncSPIInterface (SpiDevice E)) (register : Nat) :
    BusResult E (List Nat) :=
  i.read_any_register register BME280_P_T_H_DATA_LEN

/-- `AsyncSPIInterface::read_pt_calib_data`. -/
def AsyncSPIInterface.read_pt_calib_data {E : Type}
    (i : AsyncSPIInterface (SpiDevice E)) (register : Nat) :
    BusResult E (List Nat) :=
  i.read_any_register register BME280_P_T_CALIB_DATA_LEN

/-- `AsyncSPIInterface::read_h_calib_data`. -/
def AsyncSPIInterface.read_h_calib_data {E : Type}
    (i : AsyncSPIInterface (SpiDevice E)) (register : Nat) :
    BusResult E (List Nat) :=
  i.read_any_register register BME280_H_CALIB_DATA_LEN

/-- `AsyncSPIInterface::write_register` (suspension-capable variant):
`spi.transfer(&mut [], &[register & 0x7f, payload])` — a single
transaction whose only operation is a transfer that reads nothing and
sends the masked address byte then the payload. -/
def AsyncSPIInterface.write_register {E : Type}
    (i : AsyncSPIInterface (SpiDevice E)) (register : Nat) (payload : Nat) :
    BusResult E Unit :=
  -- If the first bit is 0, the register is written.
  let txn : List SpiOp := [.transfer 0 [register &&& 0x7f, payload]]
  ([txn],
    match i.spi txn with
    | .ok _ => .ok ()
    | .error e => .error (.Bus (.SPI e)))

/-- Modelled from the spec: chip-ID register address of the missing
`lib.rs` (vendor register map, §6). -/
def BME280_CHIP_ID_ADDR : Nat := 0xD0

/-- Modelled from the spec: the expected sensor identity byte. -/
def BME280_CHIP_ID : Nat := 0x60

/-- Modelled from the spec: start of the temperature+pressure calibration
range. -/
def BME280_P_T_CALIB_DATA_ADDR : Nat := 0x88

/-- Modelled from the spec: start of the humidity calibration range. -/
def BME280_H_CALIB_DATA_ADDR : Nat := 0xE1

/-- Modelled from the spec: humidity-oversampling control register. -/
def BME280_CTRL_HUM_ADDR : Nat := 0xF2

/-- Modelled from the spec: combined temperature/pressure-oversampling and
mode control register. -/
def BME280_CTRL_MEAS_ADDR : Nat := 0xF4

/-- Modelled from the spec: IIR-filter/config register. -/
def BME280_CONFIG_ADDR : Nat := 0xF5

/-- Modelled from the spec: start of the raw data block. -/
def BME280_DATA_ADDR : Nat := 0xF7

/-- Modelled from the spec: forced-mode bits of the control register. -/
def BME280_FORCED_MODE : Nat := 1

/-- Little-endian 16-bit word at offset `i` of a byte block. -/
def u16le (d : List Nat) (i : Nat) : Nat :=
  d.getD i 0 + 256 * d.getD (i + 1) 0

/-- Reinterpret a 16-bit word as a signed value. -/
def toI16 (n : Nat) : Int :=
  if n % 65536 < 32768 then (n % 65536 : Int) else (n % 65536 : Int) - 65536

/-- Reinterpret a byte as a signed value. -/
def toI8 (n : Nat) : Int :=
  if n % 256 < 128 then (n % 256 : Int) else (n % 256 : Int) - 256

/-- Modelled from the spec: the factory trim constants of the missing
`lib.rs` (§3): three temperature, nine pressure and six humidity
constants, signed or unsigned 8–16-bit words per the vendor layout,
widened to `Int` here. -/
structure Calibration where
  dig_t1 : Int
  dig_t2 : Int
  dig_t3 : Int
  dig_p1 : Int
  dig_p2 : Int
  dig_p3 : Int
  dig_p4 : Int
  dig_p5 : Int
  dig_p6 : Int
  dig_p7 : Int
  dig_p8 : Int
  dig_p9 : Int
  dig_h1 : Int
  dig_h2 : Int
  dig_h3 : Int
  dig_h4 : Int
  dig_h5 : Int
  dig_h6 : Int
deriving Repr, DecidableEq

/-- Modelled from the spec: decoding of the two calibration blocks (§4.2)
of the missing `lib.rs` — little-endian 16-bit words, `dig_h1` living in
the first block, and `dig_h4`/`dig_h5` each split across bytes 3–5 of the
humidity block (byte 4 shared, one nibble each). -/
def parse_calib_data (pt : List Nat) (hb : List Nat) : Calibration :=
  Calibration.mk
    (u16le pt 0 : Int)                                 -- dig_t1, unsigned
    (toI16 (u16le pt 2))                               -- dig_t2
    (toI16 (u16le pt 4))                               -- dig_t3
    (u16le pt 6 : Int)                                 -- dig_p1, unsigned
    (toI16 (u16le pt 8))                               -- dig_p2
    (toI16 (u16le pt 10))                              -- dig_p3
    (toI16 (u16le pt 12))                              -- dig_p4
    (toI16 (u16le pt 14))                              -- dig_p5
    (toI16 (u16le pt 16))                              -- dig_p6
    (toI16 (u16le pt 18))                              -- dig_p7
    (toI16 (u16le pt 20))                              -- dig_p8
    (toI16 (u16le pt 22))                              -- dig_p9
    (pt.getD 25 0 : Int)                               -- dig_h1, unsigned byte
    (toI16 (u16le hb 0))                               -- dig_h2
    (hb.getD 2 0 : Int)                                -- dig_h3, unsigned byte
    (toI8 (hb.getD 3 0) * 16 + (hb.getD 4 0 % 16 : Int)) -- dig_h4, split
    (toI8 (hb.getD 5 0) * 16 + (hb.getD 4 0 / 16 : Int)) -- dig_h5, split
    (toI8 (hb.getD 6 0))                               -- dig_h6

/-- Modelled from the spec: per-channel oversampling (§3) of the missing
`lib.rs`. -/
inductive Oversampling where
  | Skip
  | Oversampling1X
  | Oversampling2X
  | Oversampling4X
  | Oversampling8X
  | Oversampling16X
deriving Repr, DecidableEq

/-- Register encoding of an oversampling setting. -/
def Oversampling.bits : Oversampling → Nat
  | .Skip => 0
  | .Oversampling1X => 1
  | .Oversampling2X => 2
  | .Oversampling4X => 3
  | .Oversampling8X => 4
  | .Oversampling16X => 5

/-- Modelled from the spec: IIR low-pass filter coefficient (§3). -/
inductive IIRFilter where
  | Off
  | Coefficient2
  | Coefficient4
  | Coefficient8
  | Coefficient16
deriving Repr, DecidableEq

/-- Register encoding of a filter coefficient. -/
def IIRFilter.bits : IIRFilter → Nat
  | .Off => 0
  | .Coefficient2 => 1
  | .Coefficient4 => 2
  | .Coefficient8 => 3
  | .Coefficient16 => 4

/-- Modelled from the spec: the `Configuration` value of the missing
`lib.rs` (§3): oversampling per channel plus filter coefficient, built
with a chained `with_*` builder. -/
structure Configuration where
  temperature_oversampling : Oversampling
  pressure_oversampling : Oversampling
  humidity_oversampling : Oversampling
  iir_filter : IIRFilter
deriving Repr, DecidableEq

/-- `Configuration::default()`.  The derived field defaults are not
observable through any claim (`init` overrides all four fields); the
enums' first variants stand in for them. -/
def Configuration.default : Configuration :=
  ⟨Oversampling.Skip, Oversampling.Skip, Oversampling.Skip, IIRFilter.Off⟩

/-- Builder: set the temperature oversampling. -/
def Configuration.with_temperature_oversampling (c : Configuration)
    (o : Oversampling) : Configuration :=
  ⟨o, c.pressure_oversampling, c.humidity_oversampling, c.iir_filter⟩

/-- Builder: set the pressure oversampling. -/
def Configuration.with_pressure_oversampling (c : Configuration)
    (o : Oversampling) : Configuration :=
  ⟨c.temperature_oversampling, o, c.humidity_oversampling, c.iir_filter⟩

/-- Builder: set the humidity oversampling. -/
def Configuration.with_humidity_oversampling (c : Configuration)
    (o : Oversampling) : Configuration :=
  ⟨c.temperature_oversampling, c.pressure_oversampling, o, c.iir_filter⟩

/-- Builder: set the IIR filter coefficient. -/
def Configuration.with_iir_filter (c : Configuration)
    (f : IIRFilter) : Configuration :=
  ⟨c.temperature_oversampling, c.pressure_oversampling,
    c.humidity_oversampling, f⟩

/-- Modelled from the spec: the raw ADC triple (§3) of the missing
`lib.rs` — pressure and temperature are 20-bit unsigned, humidity 16-bit
unsigned. -/
structure RawMeasurement where
  pressure : Nat
  temperature : Nat
  humidity : Nat
deriving Repr, DecidableEq

/-- Modelled from the spec: the "channel disabled" sentinel for the
20-bit pressure/temperature fields (all-ones pattern, §3). -/
def BME280_SKIPPED_20BIT : Nat := 0xFFFFF

/-- Modelled from the spec: the humidity skip sentinel (§3, the vendor's
specific skip value for the 16-bit humidity field). -/
def BME280_SKIPPED_HUMIDITY : Nat := 0x8000

/-- Modelled from the spec: decoding of the 8-byte raw data block —
pressure and temperature are the top 20 bits of three bytes each,
humidity is a big-endian 16-bit word. -/
def parse_raw_data (d : List Nat) : RawMeasurement :=
  RawMeasurement.mk
    (d.getD 0 0 * 4096 + d.getD 1 0 * 16 + d.getD 2 0 / 16)
    (d.getD 3 0 * 4096 + d.getD 4 0 * 16 + d.getD 5 0 / 16)
    (d.getD 6 0 * 256 + d.getD 7 0)

/-- Arithmetic shift right on signed machine integers: Rust `>> n`
floors, which is `Int` division by `2 ^ n` (Euclidean division agrees
with floor division for positive divisors). -/
def asr (x : Int) (n : Nat) : Int :=
  x / (2 ^ n : Int)

/-- Modelled from the spec: the fine-temperature intermediate of the
vendor fixed-point reference formula (§4.3 step 1), which the missing
`lib.rs` must match bit-for-bit. -/
def t_fine (c : Calibration) (adc_T : Int) : Int :=
  let var1 := asr ((asr adc_T 3 - c.dig_t1 * 2) * c.dig_t2) 11
  let var2 :=
    asr (asr ((asr adc_T 4 - c.dig_t1) * (asr adc_T 4 - c.dig_t1)) 12
          * c.dig_t3) 14
  var1 + var2

/-- Modelled from the spec: fixed-point temperature compensation (§4.3
step 1); output in hundredths of °C. -/
def compensate_temperature_fixed (c : Calibration) (adc_T : Int) : Int :=
  asr (t_fine c adc_T * 5 + 128) 8

/-- Modelled from the spec: the denominator term (`var1` at the division
point) of the vendor fixed-point pressure formula (§4.3 step 2). -/
def pressure_denominator (c : Calibration) (tf : Int) : Int :=
  let v1 := tf - 128000
  asr ((2 ^ 47 + (asr (v1 * v1 * c.dig_p3) 8 + v1 * c.dig_p2 * 2 ^ 12))
        * c.dig_p1) 33

/-- Modelled from the spec: fixed-point pressure compensation (§4.3
step 2), returning 0 instead of dividing when the denominator term is 0;
output in Q24.8 Pa.  The machine division truncates toward zero
(`Int.tdiv`), as Rust's `/` does. -/
def compensate_pressure_fixed (c : Calibration) (tf : Int) (adc_P : Int) :
    Int :=
  let v1 := tf - 128000
  let var2 := v1 * v1 * c.dig_p6 + v1 * c.dig_p5 * 2 ^ 17 + c.dig_p4 * 2 ^ 35
  let var1 := pressure_denominator c tf
  if var1 = 0 then 0
  else
    let p0 := 1048576 - adc_P
    let p1 := Int.tdiv ((p0 * 2 ^ 31 - var2) * 3125) var1
    let v1b := asr (c.dig_p9 * asr p1 13 * asr p1 13) 25
    let v2b := asr (c.dig_p8 * p1) 19
    asr (p1 + v1b + v2b) 8 + c.dig_p7 * 2 ^ 4

/-- Modelled from the spec: fixed-point humidity compensation (§4.3
step 3), clamped to the physically valid range after computation; output
in Q22.10 %RH, i.e. `102400 = 100 %RH`. -/
def compensate_humidity_fixed (c : Calibration) (tf : Int) (adc_H : Int) :
    Int :=
  let v := tf - 76800
  let v2 :=
    asr (adc_H * 2 ^ 14 - c.dig_h4 * 2 ^ 20 - c.dig_h5 * v + 16384) 15 *
      asr ((asr (asr (v * c.dig_h6) 10 * (asr (v * c.dig_h3) 11 + 32768)) 10
             + 2097152) * c.dig_h2 + 8192) 14
  let v3 := v2 - asr (asr (asr v2 15 * asr v2 15) 7 * c.dig_h1) 4
  let v4 := max v3 0
  let v5 := min v4 419430400
  asr v5 12

/-- Modelled from the spec: the raw fixed-point measurement triple
(`MeasurementsFixedRaw`, §3): each channel absent when its raw field
carries the disabled sentinel. -/
structure MeasurementsFixedRaw where
  temperature : Option Int
  pressure : Option Int
  humidity : Option Int
deriving Repr, DecidableEq

/-- Modelled from the spec: the full fixed-point compensation step
(§4.3): fine temperature is computed first and feeds the pressure and
humidity polynomials; each channel is independently skipped (absent, not
zero) when its raw field carries the sentinel. -/
def compensate_fixed_raw (c : Calibration) (raw : RawMeasurement) :
    MeasurementsFixedRaw :=
  let tf := t_fine c (raw.temperature : Int)
  MeasurementsFixedRaw.mk
    (if raw.temperature = BME280_SKIPPED_20BIT then none
     else some (compensate_temperature_fixed c (raw.temperature : Int)))
    (if raw.pressure = BME280_SKIPPED_20BIT then none
     else some (compensate_pressure_fixed c tf (raw.pressure : Int)))
    (if raw.humidity = BME280_SKIPPED_HUMIDITY then none
     else some (compensate_humidity_fixed c tf (raw.humidity : Int)))

/-- Modelled from the spec: the floating-point `Measurements` of the
missing `lib.rs`.  IEEE float arithmetic is outside this embedding; the
fields carry the vendor fixed-point reference values instead.  Every
claim settled against this type depends only on the presence or absence
of the fields, which the spec fixes identically across the numeric
representations. -/
structure Measurements where
  temperature : Option Int
  pressure : Option Int
  humidity : Option Int
deriving Repr, DecidableEq

/-- Modelled from the spec: the decimal-scaled fixed-point
`MeasurementsFixed`, derived from the raw fixed output by a fixed divisor
per channel (§4.3). -/
structure MeasurementsFixed where
  temperature : Option Int
  pressure : Option Int
  humidity : Option Int
deriving Repr, DecidableEq

/-- Conversion used by the floating-point `measure` stand-in. -/
def MeasurementsFixedRaw.toMeasurements (m : MeasurementsFixedRaw) :
    Measurements :=
  Measurements.mk m.temperature m.pressure m.humidity

/-- Per-channel fixed divisors: hundredths of °C, Q24.8 Pa, Q22.10 %RH
down to whole units. -/
def MeasurementsFixedRaw.toFixed (m : MeasurementsFixedRaw) :
    MeasurementsFixed :=
  MeasurementsFixed.mk
    (m.temperature.map (fun t => Int.tdiv t 100))
    (m.pressure.map (fun p => Int.tdiv p 256))
    (m.humidity.map (fun h => Int.tdiv h 1024))

/-- The transport-agnostic driver core (`AsyncBME280Common<I>` of the
missing `lib.rs`; the blocking `BME280Common` is the identical
`maybe_async_cfg` expansion): a transport plus the calibration loaded by
`init`, `None` until then. -/
structure AsyncBME280Common (SPI : Type) where
  interface : AsyncSPIInterface SPI
  calibration : Option Calibration

/-- Modelled from the spec: `BME280Common::init` (§4.4) — read and check
the chip identity, read and parse the two calibration blocks, then write
the humidity control register (before the combined control register, per
the vendor register-dependency ordering), the combined control register
(oversampling bits, sleep mode), and the config register (filter bits).
The inter-step delay primitive touches no bus state and is not modelled.
Returns the bus trace, the result, and the resulting driver state (left
as-is on the failing prefix, per the documented absence of rollback). -/
def AsyncBME280Common.init {E : Type} (c : AsyncBME280Common (SpiDevice E))
    (config : Configuration) :
    List (List SpiOp) × Except (Error (SPIError E)) Unit
      × AsyncBME280Common (SpiDevice E) :=
  let i := c.interface
  let (t1, r1) := i.read_register BME280_CHIP_ID_ADDR
  match r1 with
  | .error e => (t1, .error e, c)
  | .ok id =>
    if id ≠ BME280_CHIP_ID then (t1, .error (.UnsupportedChip id), c)
    else
      let (t2, r2) := i.read_pt_calib_data BME280_P_T_CALIB_DATA_ADDR
      match r2 with
      | .error e => (t1 ++ t2, .error e, c)
      | .ok pt =>
        let (t3, r3) := i.read_h_calib_data BME280_H_CALIB_DATA_ADDR
        match r3 with
        | .error e => (t1 ++ t2 ++ t3, .error e, c)
        | .ok hb =>
          let c2 := AsyncBME280Common.mk i (some (parse_calib_data pt hb))
          let (t4, r4) :=
            i.write_register BME280_CTRL_HUM_ADDR
              config.humidity_oversampling.bits
          match r4 with
          | .error e => (t1 ++ t2 ++ t3 ++ t4, .error e, c2)
          | .ok _ =>
            let (t5, r5) :=
              i.write_register BME280_CTRL_MEAS_ADDR
                (config.temperature_oversampling.bits * 32
                  + config.pressure_oversampling.bits * 4)
            match r5 with
            | .error e => (t1 ++ t2 ++ t3 ++ t4 ++ t5, .error e, c2)
            | .ok _ =>
              let (t6, r6) :=
                i.write_register BME280_CONFIG_ADDR (config.iir_filter.bits * 4)
              match r6 with
              | .error e => (t1 ++ t2 ++ t3 ++ t4 ++ t5 ++ t6, .error e, c2)
              | .ok _ => (t1 ++ t2 ++ t3 ++ t4 ++ t5 ++ t6, .ok (), c2)

/-- Modelled from the spec: the shared measurement protocol (§4.4) behind
the three `measure*` variants — fail with `Uninitialized` unless a
calibration is loaded, otherwise request a forced-mode conversion
(read-modify-write of the control register), wait out the conversion
delay (no bus effect, not modelled), read the raw data block, and run the
compensation engine; `f` is the per-variant output conversion. -/
def AsyncBME280Common.measure_with {E : Type} {α : Type}
    (f : MeasurementsFixedRaw → α) (c : AsyncBME280Common (SpiDevice E)) :
    List (List SpiOp) × Except (Error (SPIError E)) α :=
  match c.calibration with
  | none => ([], .error .Uninitialized)
  | some cal =>
    let i := c.interface
    let (t1, r1) := i.read_register BME280_CTRL_MEAS_ADDR
    match r1 with
    | .error e => (t1, .error e)
    | .ok ctrl =>
      let (t2, r2) :=
        i.write_register BME280_CTRL_MEAS_ADDR
          ((ctrl &&& 0xFC) ||| BME280_FORCED_MODE)
      match r2 with
      | .error e => (t1 ++ t2, .error e)
      | .ok _ =>
        let (t3, r3) := i.read_data BME280_DATA_ADDR
        match r3 with
        | .error e => (t1 ++ t2 ++ t3, .error e)
        | .ok d => (t1 ++ t2 ++ t3, .ok (f (compensate_fixed_raw cal (parse_raw_data d))))

/-- `BME280Common::measure` (floating-point output). -/
def AsyncBME280Common.measure {E : Type} (c : AsyncBME280Common (SpiDevice E)) :
    List (List SpiOp) × Except (Error (SPIError E)) Measurements :=
  AsyncBME280Common.measure_with MeasurementsFixedRaw.toMeasurements c

/-- `BME280Common::measure_fixed` (decimal-scaled fixed-point output). -/
def AsyncBME280Common.measure_fixed {E : Type}
    (c : AsyncBME280Common (SpiDevice E)) :
    List (List SpiOp) × Except (Error (SPIError E)) MeasurementsFixed :=
  AsyncBME280Common.measure_with MeasurementsFixedRaw.toFixed c

/-- `BME280Common::measure_fixed_raw` (vendor-native fixed-point
output). -/
def AsyncBME280Common.measure_fixed_raw {E : Type}
    (c : AsyncBME280Common (SpiDevice E)) :
    List (List SpiOp) × Except (Error (SPIError E)) MeasurementsFixedRaw :=
  AsyncBME280Common.measure_with id c

/-- `AsyncBME280<SPI>` of `src/spi.rs` (the blocking `BME280` is the
identical `maybe_async_cfg` expansion): a wrapper around the common
core specialised to the SPI transport. -/
structure AsyncBME280 (SPI : Type) where
  common : AsyncBME280Common SPI

/-- `AsyncBME280::new` (`src/spi.rs` lines 65–72): wraps the device in an
interface with no calibration and unconditionally returns `Ok`. -/
def AsyncBME280.new {SPI : Type} (E : Type) (spi : SPI) :
    Except (Error (SPIError E)) (AsyncBME280 SPI) :=
  .ok (AsyncBME280.mk (AsyncBME280Common.mk (AsyncSPIInterface.mk spi) none))

/-- `AsyncBME280::init` (`src/spi.rs` lines 77–91): initialise with the
documented recommended preset, built by the `with_*` chain on
`Configuration::default()` exactly as in the source. -/
def AsyncBME280.init {E : Type} (b : AsyncBME280 (SpiDevice E)) :
    List (List SpiOp) × Except (Error (SPIError E)) Unit
      × AsyncBME280 (SpiDevice E) :=
  let (t, r, c) :=
    AsyncBME280Common.init b.common
      ((((Configuration.default.with_humidity_oversampling
            Oversampling.Oversampling1X).with_pressure_oversampling
            Oversampling.Oversampling16X).with_temperature_oversampling
            Oversampling.Oversampling2X).with_iir_filter
            IIRFilter.Coefficient16)
  (t, r, AsyncBME280.mk c)

/-- `AsyncBME280::init_with_config` (`src/spi.rs` lines 94–100). -/
def AsyncBME280.init_with_config {E : Type} (b : AsyncBME280 (SpiDevice E))
    (config : Configuration) :
    List (List SpiOp) × Except (Error (SPIError E)) Unit
      × AsyncBME280 (SpiDevice E) :=
  let (t, r, c) := AsyncBME280Common.init b.common config
  (t, r, AsyncBME280.mk c)

/-- `AsyncBME280::measure`. -/
def AsyncBME280.measure {E : Type} (b : AsyncBME280 (SpiDevice E)) :
    List (List SpiOp) × Except (Error (SPIError E)) Measurements :=
  AsyncBME280Common.measure b.common

/-- `AsyncBME280::measure_fixed`. -/
def AsyncBME280.measure_fixed {E : Type} (b : AsyncBME280 (SpiDevice E)) :
    List (List SpiOp) × Except (Error (SPIError E)) MeasurementsFixed :=
  AsyncBME280Common.measure_fixed b.common

/-- `AsyncBME280::measure_fixed_raw`. -/
def AsyncBME280.measure_fixed_raw {E : Type} (b : AsyncBME280 (SpiDevice E)) :
    List (List SpiOp) × Except (Error (SPIError E)) MeasurementsFixedRaw :=
  AsyncBME280Common.measure_fixed_raw b.common

/-- A device that fails every transaction with transport error `7`; used
as a concrete transport in witnesses. -/
def failDevice : SpiDevice Nat :=
  fun _ => .error 7

/-- A freshly constructed driver over `failDevice`: `init` has never been
attempted, so no calibration is loaded. -/
def freshDriver : AsyncBME280 (SpiDevice Nat) :=
  AsyncBME280.mk (AsyncBME280Common.mk (AsyncSPIInterface.mk failDevice) none)

/-- A degenerate all-zero calibration set, used to exercise the
denominator guard and the clamps at concrete inputs. -/
def zeroCal : Calibration :=
  Calibration.mk 0 0 0 0 0 0 0 0 0 0 0 0 0 0 0 0 0 0

/-- A raw triple with every channel at its disabled sentinel. -/
def sentinelRaw : RawMeasurement :=
  RawMeasurement.mk BME280_SKIPPED_20BIT BME280_SKIPPED_20BIT
    BME280_SKIPPED_HUMIDITY

/-- A raw triple with every channel live (no sentinel). -/
def zeroRaw : RawMeasurement :=
  RawMeasurement.mk 0 0 0

/-- The blocking interface over `failDevice`, for concrete witnesses. -/
def failInterface : SPIInterface (SpiDevice Nat) :=
  SPIInterface.mk failDevice

/-- The suspension-capable interface over `failDevice`, for concrete
witnesses. -/
def failAsyncInterface : AsyncSPIInterface (SpiDevice Nat) :=
  AsyncSPIInterface.mk failDevice

theorem asr12_clamp_bounds (v : Int) :
    0 ≤ asr (min (max v 0) 419430400) 12 ∧
      asr (min (max v 0) 419430400) 12 ≤ 102400 := by
  constructor
  · exact Int.ediv_nonneg (le_min (le_max_right _ _) (by norm_num)) (by norm_num)
  · have h1 : min (max v 0) 419430400 ≤ 419430400 := min_le_right _ _
    have h2 : asr (min (max v 0) 419430400) 12 ≤ asr 419430400 12 :=
      Int.ediv_le_ediv (by norm_num) h1
    have h3 : asr 419430400 12 = 102400 := by decide
    omega

theorem compensate_humidity_fixed_bounds (c : Calibration) (tf adc : Int) :
    0 ≤ compensate_humidity_fixed c tf adc ∧
      compensate_humidity_fixed c tf adc ≤ 102400 := by
  unfold compensate_humidity_fixed
  exact asr12_clamp_bounds _

/-- C1: for every register address and payload byte, `write_register` on
the SPI transport issues exactly one bus transaction whose outgoing bytes
are `[register & 0x7F, payload]` — a plain write in the blocking variant,
a read-nothing transfer in the suspension-capable variant. -/
theorem c1_write_register_sends_masked_address {E : Type}
    (i : SPIInterface (SpiDevice E)) (ai : AsyncSPIInterface (SpiDevice E))
    (r p : Nat) :
    (SPIInterface.write_register i r p).1
        = [[SpiOp.write [r &&& 0x7f, p]]] ∧
      (AsyncSPIInterface.write_register ai r p).1
        = [[SpiOp.transfer 0 [r &&& 0x7f, p]]] ∧
      (SPIInterface.write_register i r p).1.map txnBytesSent
        = [[r &&& 0x7f, p]] ∧
      (AsyncSPIInterface.write_register ai r p).1.map txnBytesSent
        = [[r &&& 0x7f, p]] :=
  ⟨rfl, rfl, rfl, rfl⟩

/-- C2: every read on the SPI transport — single register, raw-data
block, pressure/temperature calibration block, humidity calibration
block, in both variants — is one write-then-read transaction sending the
unmasked address byte and then reading the block length. -/
theorem c2_read_is_write_then_read {E : Type}
    (i : SPIInterface (SpiDevice E)) (ai : AsyncSPIInterface (SpiDevice E))
    (r : Nat) :
    (SPIInterface.read_register i r).1
        = [[SpiOp.write [r], SpiOp.read 1]] ∧
      (SPIInterface.read_data i r).1
        = [[SpiOp.write [r], SpiOp.read BME280_P_T_H_DATA_LEN]] ∧
      (SPIInterface.read_pt_calib_data i r).1
        = [[SpiOp.write [r], SpiOp.read BME280_P_T_CALIB_DATA_LEN]] ∧
      (SPIInterface.read_h_calib_data i r).1
        = [[SpiOp.write [r], SpiOp.read BME280_H_CALIB_DATA_LEN]] ∧
      (AsyncSPIInterface.read_register ai r).1
        = [[SpiOp.write [r], SpiOp.read 1]] ∧
      (AsyncSPIInterface.read_data ai r).1
        = [[SpiOp.write [r], SpiOp.read BME280_P_T_H_DATA_LEN]] ∧
      (AsyncSPIInterface.read_pt_calib_data ai r).1
        = [[SpiOp.write [r], SpiOp.read BME280_P_T_CALIB_DATA_LEN]] ∧
      (AsyncSPIInterface.read_h_calib_data ai r).1
        = [[SpiOp.write [r], SpiOp.read BME280_H_CALIB_DATA_LEN]] :=
  ⟨rfl, rfl, rfl, rfl, rfl, rfl, rfl, rfl⟩

/-- C3: on a driver holding no calibration — the state of every driver
constructed by `new` on which `init` has never succeeded — all three
`measure*` variants fail with `Uninitialized` without touching the bus,
for every transport. -/
theorem c3_measure_before_init_uninitialized {E : Type}
    (b : AsyncBME280 (SpiDevice E)) (h : b.common.calibration = none) :
    AsyncBME280.measure b = ([], .error Error.Uninitialized) ∧
      AsyncBME280.measure_fixed b = ([], .error Error.Uninitialized) ∧
      AsyncBME280.measure_fixed_raw b = ([], .error Error.Uninitialized) := by
  refine ⟨?_, ?_, ?_⟩ <;>
    simp [AsyncBME280.measure, AsyncBME280.measure_fixed,
      AsyncBME280.measure_fixed_raw, AsyncBME280Common.measure,
      AsyncBME280Common.measure_fixed, AsyncBME280Common.measure_fixed_raw,
      AsyncBME280Common.measure_with, h]

theorem c3_witness :
    AsyncBME280.measure freshDriver = ([], .error Error.Uninitialized) ∧
      AsyncBME280.measure_fixed freshDriver
        = ([], .error Error.Uninitialized) ∧
      AsyncBME280.measure_fixed_raw freshDriver
        = ([], .error Error.Uninitialized) :=
  c3_measure_before_init_uninitialized freshDriver rfl

/-- C4: the configuration `init` applies when called without an explicit
`Configuration` — built in `src/spi.rs` by the `with_*` chain on
`Configuration::default()` — has humidity oversampling 1×, pressure
oversampling 16×, temperature oversampling 2×, and IIR filter
coefficient 16, and `init` is exactly `init_with_config` at that value. -/
theorem c4_default_init_configuration :
    ((((Configuration.default.with_humidity_oversampling
          Oversampling.Oversampling1X).with_pressure_oversampling
          Oversampling.Oversampling16X).with_temperature_oversampling
          Oversampling.Oversampling2X).with_iir_filter
          IIRFilter.Coefficient16).humidity_oversampling
        = Oversampling.Oversampling1X ∧
      ((((Configuration.default.with_humidity_oversampling
          Oversampling.Oversampling1X).with_pressure_oversampling
          Oversampling.Oversampling16X).with_temperature_oversampling
          Oversampling.Oversampling2X).with_iir_filter
          IIRFilter.Coefficient16).pressure_oversampling
        = Oversampling.Oversampling16X ∧
      ((((Configuration.default.with_humidity_oversampling
          Oversampling.Oversampling1X).with_pressure_oversampling
          Oversampling.Oversampling16X).with_temperature_oversampling
          Oversampling.Oversampling2X).with_iir_filter
          IIRFilter.Coefficient16).temperature_oversampling
        = Oversampling.Oversampling2X ∧
      ((((Configuration.default.with_humidity_oversampling
          Oversampling.Oversampling1X).with_pressure_oversampling
          Oversampling.Oversampling16X).with_temperature_oversampling
          Oversampling.Oversampling2X).with_iir_filter
          IIRFilter.Coefficient16).iir_filter
        = IIRFilter.Coefficient16 ∧
      ∀ {E : Type} (b : AsyncBME280 (SpiDevice E)),
        AsyncBME280.init b
          = AsyncBME280.init_with_config b
              ((((Configuration.default.with_humidity_oversampling
                    Oversampling.Oversampling1X).with_pressure_oversampling
                    Oversampling.Oversampling16X).with_temperature_oversampling
                    Oversampling.Oversampling2X).with_iir_filter
                    IIRFilter.Coefficient16) := by
  refine ⟨rfl, rfl, rfl, rfl, ?_⟩
  intro E b
  rfl

/-- C5: pressure compensation yields exactly 0 (and performs no
division) for every calibration set and every non-skipped raw pressure
sample whenever the denominator term of the reference formula is 0. -/
theorem c5_pressure_zero_denominator (cal : Calibration)
    (raw : RawMeasurement) (hp : raw.pressure ≠ BME280_SKIPPED_20BIT)
    (hd : pressure_denominator cal (t_fine cal (raw.temperature : Int)) = 0) :
    (compensate_fixed_raw cal raw).pressure = some 0 := by
  simp [compensate_fixed_raw, compensate_pressure_fixed, hp, hd]

theorem c5_witness :
    zeroRaw.pressure ≠ BME280_SKIPPED_20BIT ∧
      pressure_denominator zeroCal
          (t_fine zeroCal (zeroRaw.temperature : Int)) = 0 ∧
      (compensate_fixed_raw zeroCal zeroRaw).pressure = some 0 :=
  ⟨by decide, by decide,
    c5_pressure_zero_denominator zeroCal zeroRaw (by decide) (by decide)⟩

/-- C6: for every calibration set and every non-skipped raw humidity
sample, the compensated humidity lies within the physically valid range —
`[0, 102400]` in the Q22.10 fixed representation, i.e. `[0, 100]` %RH —
the polynomial output being clamped into it. -/
theorem c6_humidity_clamped (cal : Calibration) (raw : RawMeasurement)
    (h : Int) (hs : raw.humidity ≠ BME280_SKIPPED_HUMIDITY)
    (hh : (compensate_fixed_raw cal raw).humidity = some h) :
    0 ≤ h ∧ h ≤ 102400 := by
  simp [compensate_fixed_raw, hs] at hh
  subst hh
  exact compensate_humidity_fixed_bounds cal _ _

theorem c6_witness : (0 : Int) ≤ 0 ∧ (0 : Int) ≤ 102400 :=
  c6_humidity_clamped zeroCal zeroRaw 0 (by decide) (by decide)

/-- C7: any channel whose raw field carries its disabled sentinel yields
an absent field in the compensated output, never a zero value, for every
calibration set. -/
theorem c7_sentinel_yields_absent (cal : Calibration) (raw : RawMeasurement) :
    (raw.temperature = BME280_SKIPPED_20BIT →
        (compensate_fixed_raw cal raw).temperature = none) ∧
      (raw.pressure = BME280_SKIPPED_20BIT →
        (compensate_fixed_raw cal raw).pressure = none) ∧
      (raw.humidity = BME280_SKIPPED_HUMIDITY →
        (compensate_fixed_raw cal raw).humidity = none) := by
  refine ⟨?_, ?_, ?_⟩ <;> intro hs <;> simp [compensate_fixed_raw, hs]

theorem c7_witness :
    (compensate_fixed_raw zeroCal sentinelRaw).temperature = none ∧
      (compensate_fixed_raw zeroCal sentinelRaw).pressure = none ∧
      (compensate_fixed_raw zeroCal sentinelRaw).humidity = none :=
  ⟨(c7_sentinel_yields_absent zeroCal sentinelRaw).1 rfl,
    (c7_sentinel_yields_absent zeroCal sentinelRaw).2.1 rfl,
    (c7_sentinel_yields_absent zeroCal sentinelRaw).2.2 rfl⟩

/-- C8: every transport operation issues exactly one bus transaction
(hence no retry), and when the device fails, the failure is surfaced
immediately as `Error::Bus(SPIError::SPI(e))`. -/
theorem c8_single_transaction_immediate_failure {E : Type}
    (i : SPIInterface (SpiDevice E)) (ai : AsyncSPIInterface (SpiDevice E))
    (r p : Nat) (e : E) :
    ((SPIInterface.read_register i r).1.length = 1 ∧
      (SPIInterface.read_data i r).1.length = 1 ∧
      (SPIInterface.read_pt_calib_data i r).1.length = 1 ∧
      (SPIInterface.read_h_calib_data i r).1.length = 1 ∧
      (SPIInterface.write_register i r p).1.length = 1 ∧
      (AsyncSPIInterface.read_register ai r).1.length = 1 ∧
      (AsyncSPIInterface.read_data ai r).1.length = 1 ∧
      (AsyncSPIInterface.read_pt_calib_data ai r).1.length = 1 ∧
      (AsyncSPIInterface.read_h_calib_data ai r).1.length = 1 ∧
      (AsyncSPIInterface.write_register ai r p).1.length = 1) ∧
      ((∀ t, i.spi t = Except.error e) →
        (SPIInterface.read_register i r).2
            = .error (.Bus (.SPI e)) ∧
          (SPIInterface.read_data i r).2 = .error (.Bus (.SPI e)) ∧
          (SPIInterface.read_pt_calib_data i r).2 = .error (.Bus (.SPI e)) ∧
          (SPIInterface.read_h_calib_data i r).2 = .error (.Bus (.SPI e)) ∧
          (SPIInterface.write_register i r p).2 = .error (.Bus (.SPI e))) ∧
      ((∀ t, ai.spi t = Except.error e) →
        (AsyncSPIInterface.read_register ai r).2
            = .error (.Bus (.SPI e)) ∧
          (AsyncSPIInterface.read_data ai r).2 = .error (.Bus (.SPI e)) ∧
          (AsyncSPIInterface.read_pt_calib_data ai r).2
            = .error (.Bus (.SPI e)) ∧
          (AsyncSPIInterface.read_h_calib_data ai r).2
            = .error (.Bus (.SPI e)) ∧
          (AsyncSPIInterface.write_register ai r p).2
            = .error (.Bus (.SPI e))) := by
  refine ⟨⟨rfl, rfl, rfl, rfl, rfl, rfl, rfl, rfl, rfl, rfl⟩, ?_, ?_⟩ <;>
    intro h <;>
    refine ⟨?_, ?_, ?_, ?_, ?_⟩ <;>
    simp [SPIInterface.read_register, SPIInterface.read_data,
      SPIInterface.read_pt_calib_data, SPIInterface.read_h_calib_data,
      SPIInterface.write_register, SPIInterface.read_any_register,
      AsyncSPIInterface.read_register, AsyncSPIInterface.read_data,
      AsyncSPIInterface.read_pt_calib_data,
      AsyncSPIInterface.read_h_calib_data, AsyncSPIInterface.write_register,
      AsyncSPIInterface.read_any_register, Except.map, h]

theorem c8_witness :
    (SPIInterface.read_register failInterface 0xD0).1.length = 1 ∧
      (SPIInterface.read_register failInterface 0xD0).2
        = Except.error (Error.Bus (SPIError.SPI 7)) ∧
      (AsyncSPIInterface.write_register failAsyncInterface 0xF4 3).2
        = Except.error (Error.Bus (SPIError.SPI 7)) := by
  have h := c8_single_transaction_immediate_failure failInterface
    failAsyncInterface 0xD0 3 7
  exact ⟨h.1.1, (h.2.1 (fun t => rfl)).1, (h.2.2 (fun t => rfl)).2.2.2.2⟩

/-- C9: `init` is observably identical to `init_with_config` applied to
`Configuration::default()` with humidity oversampling 1×, pressure
oversampling 16×, temperature oversampling 2× and IIR filter
coefficient 16: same bus trace, same result, same resulting driver state,
for every transport state. -/
theorem c9_init_equals_init_with_default_config {E : Type}
    (b : AsyncBME280 (SpiDevice E)) :
    AsyncBME280.init b
      = AsyncBME280.init_with_config b
          ((((Configuration.default.with_humidity_oversampling
                Oversampling.Oversampling1X).with_pressure_oversampling
                Oversampling.Oversampling16X).with_temperature_oversampling
                Oversampling.Oversampling2X).with_iir_filter
                IIRFilter.Coefficient16) :=
  rfl

/-- C10: `new` always returns `Ok` (its error branch is unreachable) and
the constructed driver holds no calibration. -/
theorem c10_new_always_ok_no_calibration {SPI : Type} (E : Type) (spi : SPI) :
    AsyncBME280.new E spi
        = Except.ok
            (AsyncBME280.mk
              (AsyncBME280Common.mk (AsyncSPIInterface.mk spi) none)) ∧
      (AsyncBME280.mk
        (AsyncBME280Common.mk (AsyncSPIInterface.mk spi) none)).common.calibration
        = none :=
  ⟨rfl, rfl⟩

end BME280
